import Mathlib

/-!
Verification of the intelligent-call-center-assistant chatbot pipeline
(`app/chatbot.py`, `app/rag.py`).

The Python code is shallowly embedded: strings are Lean `String`s
manipulated through their character lists, distances (Python floats
compared against the literal threshold 1.2) are rationals, and the two
external effects of `answer_question` — the Chroma retrieval call and the
Gemini generation call — are passed in as function parameters while a
`Trace` value records exactly which calls were made, writer-monad style.
Python's `str.lower` is modelled on the ASCII range (all keyword lists
are ASCII).
-/

namespace CallCenter

/-- Characters Python's `str.strip()` / `str.split()` treat as whitespace. -/
def pyIsSpace (c : Char) : Bool :=
  c == ' ' || c == '\t' || c == '\n' || c == '\r' ||
    c == Char.ofNat 11 || c == Char.ofNat 12

/-- ASCII lowercasing of one character, modelling `str.lower` on ASCII text. -/
def lowerChar (c : Char) : Char :=
  if 'A' ≤ c ∧ c ≤ 'Z' then Char.ofNat (c.toNat + 32) else c

/-- `s.lower()` (ASCII range). -/
def lowerStr (s : String) : String :=
  String.mk (s.data.map lowerChar)

/-- `s.strip()`: drop leading and trailing whitespace. -/
def trimStr (s : String) : String :=
  String.mk (((s.data.dropWhile pyIsSpace).reverse.dropWhile pyIsSpace).reverse)

/-- `s.rstrip("?!.")` (the same character set as `s.rstrip(".!?")`). -/
def rstripPunct (s : String) : String :=
  String.mk ((s.data.reverse.dropWhile (fun c => c == '?' || c == '!' || c == '.')).reverse)

/-- `s.split()`: split on whitespace runs, discarding empty pieces.
`cur` accumulates the current word's characters in reverse. -/
def wordsAux (cur : List Char) : List Char → List String
  | [] => if cur.isEmpty then [] else [String.mk cur.reverse]
  | c :: cs =>
    if pyIsSpace c then
      if cur.isEmpty then wordsAux [] cs else String.mk cur.reverse :: wordsAux [] cs
    else wordsAux (c :: cur) cs

/-- `s.split()` with no argument, as in the Python code. -/
def pySplit (s : String) : List String :=
  wordsAux [] s.data

/-- `kw` occurs as a contiguous sublist of `t`. -/
def isSub (kw : List Char) : List Char → Bool
  | [] => kw.isEmpty
  | c :: cs => kw.isPrefixOf (c :: cs) || isSub kw cs

/-- Python's substring test `kw in t` on strings. -/
def strIn (kw t : String) : Bool :=
  isSub kw.data t.data

/-- `text.lower().strip()`, the normalisation both `answer_question` and
`classify_intent` apply to the incoming message. -/
def normalize (s : String) : String :=
  trimStr (lowerStr s)

/-- `contains_khmer`: the text has a character in the Khmer block U+1780–U+17FF. -/
def contains_khmer (text : String) : Bool :=
  text.data.any (fun c => decide (0x1780 ≤ c.toNat ∧ c.toNat ≤ 0x17FF))

/-- `BANK_KEYWORDS` from `app/chatbot.py`, in source order, duplicates included
("login", "log in", "password" and "otp" each appear twice). -/
def BANK_KEYWORDS : List String := [
  "account", "savings", "current", "checking",
  "fixed deposit", "time deposit", "term deposit",
  "deposit", "withdrawal", "withdraw", "transfer",
  "remittance", "loan", "credit", "card", "debit",
  "atm", "cif", "kyc",
  "mobile app", "mobile banking", "internet banking",
  "online banking", "ibanking", "i-banking", "app login",
  "otp", "one time password", "one-time password",
  "password", "pin", "passcode", "login", "log in",
  "locked", "block", "blocked", "lock", "unlock",
  "statement", "passbook", "slip",
  "fees", "charges", "interest", "rate", "limit",
  "transaction", "failed transaction",
  "login", "log in", "cannot login", "can't login",
  "failed login", "mobile app login", "login issue",
  "password", "otp", "verification", "auth", "authentication"]

/-- `PROBLEM_KEYWORDS` from `app/chatbot.py`. -/
def PROBLEM_KEYWORDS : List String := [
  "cannot", "can't", "cant",
  "error", "issue", "problem", "failed", "not working",
  "still cannot", "still can't", "doesn't work", "does not work"]

/-- `SMALLTALK_KEYWORDS` from `app/chatbot.py` (a Python set; listed here in
source order — only the count of matching members is ever used). -/
def SMALLTALK_KEYWORDS : List String := [
  "hi", "hello", "hey",
  "good morning", "good afternoon", "good evening",
  "thanks", "thank you", "thank", "ok", "okay",
  "cool", "great", "nice",
  "bye", "goodbye", "see you",
  "got it", "understood"]

/-- `SMALLTALK_REPLIES` from `app/chatbot.py`. -/
def SMALLTALK_REPLIES : List String := [
  "Sure. What case are you working on?",
  "No problem. Tell me the customer's question when you're ready.",
  "Happy to help. What does the customer need?",
  "Got it. Please type the customer's question."]

/-- `keyword_score`: how many entries of `keywords` occur as substrings of the
lowercased text, counted once per list entry (Python's
`sum(1 for kw in keywords if kw in t)`). -/
def keyword_score (text : String) (keywords : List String) : Nat :=
  let t := lowerStr text
  (keywords.map (fun kw => if strIn kw t then 1 else 0)).sum

/-- The continuation markers of `is_followup`. -/
def FOLLOWUP_MARKERS : List String := [
  "what about", "how about", "and for", "and then",
  "also", "too", "again", "valid", "without",
  "are you sure", "really"]

/-- `is_followup`: heuristic deciding whether the message continues the
previous turn. Mirrors `app/chatbot.py` lines 109–139. -/
def is_followup (question : String) (history : List (String × String)) : Bool :=
  if history.isEmpty then false
  else
    let q := rstripPunct (normalize question)
    let words := pySplit q
    if words.length ≤ 6 then true
    else if FOLLOWUP_MARKERS.any (fun m => strIn m q) then true
    else
      match history.getLast? with
      | none => false
      | some p =>
        let last_words := pySplit (lowerStr p.1)
        words.any (fun w => last_words.contains w)

/-- The WH words of `classify_intent`. -/
def WH_WORDS : List String := ["what", "how", "when", "where", "why", "which"]

/-- `classify_intent`: rule-based routing into "smalltalk" / "banking"
("other" never actually occurs — the final fallback returns "banking").
Mirrors `app/chatbot.py` lines 142–205; the Python early returns inside the
`smalltalk_score > 0 and word_count <= 12` block fall through to the last
two checks when none fires, hence the combined condition here. -/
def classify_intent (text : String) (_history : List (String × String)) : String :=
  let t := normalize text
  if t = "" then "smalltalk"
  else
    let stripped := rstripPunct t
    let words := pySplit stripped
    let word_count := words.length
    let has_question_mark := strIn "?" text
    let has_wh := WH_WORDS.any (fun w => strIn w stripped)
    let bank_score := keyword_score stripped BANK_KEYWORDS
    let problem_score := keyword_score stripped PROBLEM_KEYWORDS
    let smalltalk_score := (SMALLTALK_KEYWORDS.map (fun kw => if strIn kw stripped then 1 else 0)).sum
    if 0 < bank_score ∨ 0 < problem_score then "banking"
    else if has_question_mark || has_wh then
      if strIn "how are you" stripped || strIn "how's it going" stripped then "smalltalk"
      else "banking"
    else if 0 < smalltalk_score ∧ word_count ≤ 12 ∧
        ((strIn "question" stripped ∧ strIn "have" stripped) ∨ strIn "want to ask" stripped ∨
          strIn "can i ask" stripped ∨ strIn "can you answer" stripped ∨
          strIn "you can answer" stripped ∨ word_count ≤ 6) then "smalltalk"
    else if word_count ≤ 4 ∧ bank_score = 0 then "smalltalk"
    else "banking"

/-- A Chroma metadata dict, modelled as an association list. -/
abbrev Meta := List (String × String)

/-- `dict.get(key, default)` on a metadata dict. -/
def metaGet (m : Meta) (key dflt : String) : String :=
  match m.lookup key with
  | some v => v
  | none => dflt

/-- One retrieved chunk: `(doc_text, metadata, distance)`. -/
abbrev CtxDoc := String × Meta × ℚ

/-- Python's `min` on a nonempty list (none on the empty list). -/
def pyMin : List ℚ → Option ℚ
  | [] => none
  | x :: xs => some (xs.foldl min x)

/-- Python's `zip` over three lists, truncating to the shortest. -/
def zip3 : List String → List Meta → List ℚ → List CtxDoc
  | d :: ds, m :: ms, x :: xs => (d, m, x) :: zip3 ds ms xs
  | _, _, _ => []

/-- `retrieve_context` from `app/rag.py` as a function of the three lists the
vector store hands back (`documents`, `metadatas`, `distances`): the pair
`(context_docs, best_distance)`. -/
def retrieve_context (docs : List String) (metas : List Meta) (dists : List ℚ) :
    List CtxDoc × Option ℚ :=
  (zip3 docs metas dists, pyMin dists)

/-- `build_history_prefix`: the last `max_turns` exchanges as plain text. -/
def build_history_prefix (history : List (String × String)) (max_turns : Nat) : String :=
  if history.isEmpty then ""
  else
    let recent := history.drop (history.length - max_turns)
    String.intercalate "\n"
      ((recent.map (fun p => ["Agent: " ++ p.1, "Assistant: " ++ p.2])).flatten)

/-- The `[Doc i+1 | src | dist=…]` header plus document text for one context
chunk (`fmtDist` stands for the Python `f"{dist:.2f}"` float formatting). -/
def docBlock (fmtDist : ℚ → String) (i : Nat) (d : CtxDoc) : String :=
  let src0 := metaGet d.2.1 "source" "unknown source"
  let page := metaGet d.2.1 "page" ""
  let src := if page = "" then src0 else src0 ++ " (page " ++ page ++ ")"
  "[Doc " ++ toString (i + 1) ++ " | " ++ src ++ " | dist=" ++ fmtDist d.2.2 ++ "]\n" ++ d.1

/-- The fixed system instruction of `build_prompt`. -/
def SYSTEM_INSTRUCTION : String :=
  "You are an internal assistant helping call-center agents at a bank.\n" ++
  "You must follow these rules:\n" ++
  "1) Use ONLY the provided context documents and short conversation history. Do not invent policies.\n" ++
  "2) If the context does not contain enough information, say you are not sure and suggest escalating or " ++
  "checking the official system.\n" ++
  "3) Always respond in this structure:\n" ++
  "   Customer answer: <short, simple explanation the agent will say to the customer in English>.\n" ++
  "   Internal notes: <detailed internal explanation referring to context, numbers, and conditions>.\n" ++
  "   Steps: <1-3 bullet points on what the agent should do>.\n" ++
  "4) Keep tone polite, clear, and professional. Do not mention embeddings, vectors, or retrieval.\n"

/-- `build_prompt`: system instruction and user prompt for the generator. -/
def build_prompt (fmtDist : ℚ → String) (question : String)
    (context_docs : List CtxDoc) (history_text : String) : String × String :=
  let context_strs := context_docs.enum.map (fun p => docBlock fmtDist p.1 p.2)
  let context_block :=
    if context_strs.isEmpty then "No context found."
    else String.intercalate "\n\n---\n\n" context_strs
  let user_prompt :=
    history_text ++ "\n\n" ++
    "Knowledge base context:\n" ++ context_block ++ "\n\n" ++
    "Agent's question: " ++ question ++ "\n\n" ++
    "Now produce the structured answer."
  (SYSTEM_INSTRUCTION, user_prompt)

/-- `GEMINI_MODEL` from `app/chatbot.py`. -/
def GEMINI_MODEL : String := "gemini-2.5-flash"

/-- One call to `gemini_client.models.generate_content`: the model name, the
config's system instruction and temperature, and the user prompt. -/
structure GenRequest where
  model : String
  systemInstruction : String
  userPrompt : String
  temperature : ℚ
  deriving DecidableEq

/-- The external calls `answer_question` made: each retrieval query sent to
the vector store, and each request sent to the generative model. -/
structure Trace where
  retrievalQueries : List String
  genCalls : List GenRequest
  deriving DecidableEq

/-- Step 3 of `answer_question`: the query string handed to the retriever —
the previous user question plus the current one when the message is a
follow-up, the raw question otherwise. -/
def buildRetrievalQuery (raw_q : String) (history : List (String × String)) : String :=
  if is_followup (normalize raw_q) history && !history.isEmpty then
    match history.getLast? with
    | some p => p.1 ++ "\nFollow-up: " ++ raw_q
    | none => raw_q
  else raw_q

/-- `LOW_CONF_THRESHOLD` from `answer_question`. -/
def LOW_CONF_THRESHOLD : ℚ := 1.2

/-- Step 5 of `answer_question`: `(not context_docs) or (best_distance is
None) or (best_distance > LOW_CONF_THRESHOLD)`. -/
def low_conf (context_docs : List CtxDoc) (best_distance : Option ℚ) : Bool :=
  context_docs.isEmpty ||
    (match best_distance with
     | none => true
     | some d => decide (LOW_CONF_THRESHOLD < d))

/-- The fixed three-part low-confidence fallback answer. -/
def FALLBACK_ANSWER : String :=
  "Customer answer: I'm not fully sure based on the available information. " ++
  "Please inform the customer that you will double-check and get back to them.\n\n" ++
  "Internal notes: Retrieval confidence was low or there is no closely related article " ++
  "in the current knowledge base.\n\n" ++
  "Steps:\n" ++
  "1) Confirm the customer's product and key details.\n" ++
  "2) Check the official product policy or internal system manually.\n" ++
  "3) If still unclear, escalate to a supervisor. (Human handoff recommended.)"

/-- The fixed Khmer-redirect answer. -/
def KHMER_ANSWER : String :=
  "I detected Khmer text. Right now I can only search the internal knowledge base with English questions.\n" ++
  "Please retype the customer's question in English (product name, action, amount, etc.)."

/-- `context_docs[0][0] if context_docs else "No context retrieved."`. -/
def topContext (context_docs : List CtxDoc) : String :=
  match context_docs with
  | [] => "No context retrieved."
  | d :: _ => d.1

/-- Steps 6–7 scaffolding: the request `answer_question` sends to Gemini
(model, system instruction, user prompt, temperature 0.2). -/
def genRequest (fmtDist : ℚ → String) (raw_q : String)
    (history : List (String × String)) (context_docs : List CtxDoc) : GenRequest :=
  let history_text := build_history_prefix history 6
  let p := build_prompt fmtDist raw_q context_docs history_text
  { model := GEMINI_MODEL, systemInstruction := p.1, userPrompt := p.2, temperature := 0.2 }

/-- `response.text or "Sorry, I could not generate an answer."` — the model's
text field is `none` (null) or a string, and both null and the empty string
fall back to the fixed failure message. -/
def genAnswer (t : Option String) : String :=
  match t with
  | some s => if s = "" then "Sorry, I could not generate an answer." else s
  | none => "Sorry, I could not generate an answer."

/-- `answer_question` from `app/chatbot.py`. `retrieve` stands for
`retrieve_context` applied to the collection and embedding model, `generate`
for the Gemini call (returning the response's nullable text), `pick` for
`random.choice`, and `fmtDist` for float formatting inside the prompt. The
third component of the result records the external calls made. -/
def answer_question (fmtDist : ℚ → String)
    (retrieve : String → List CtxDoc × Option ℚ)
    (generate : GenRequest → Option String)
    (pick : List String → String)
    (question : String)
    (history : List (String × String)) : String × String × Trace :=
  let raw_q := question
  let normalized_q := normalize raw_q
  if contains_khmer raw_q then
    (KHMER_ANSWER, "Khmer detected — RAG not used.", ⟨[], []⟩)
  else if classify_intent normalized_q history = "smalltalk" then
    (pick SMALLTALK_REPLIES, "Smalltalk / intent — no context used.", ⟨[], []⟩)
  else
    let retrieval_question := buildRetrievalQuery raw_q history
    let res := retrieve retrieval_question
    if low_conf res.1 res.2 then
      (FALLBACK_ANSWER, topContext res.1, ⟨[retrieval_question], []⟩)
    else
      let req := genRequest fmtDist raw_q history res.1
      (genAnswer (generate req), topContext res.1, ⟨[retrieval_question], [req]⟩)

/-! ## Helper lemmas -/

theorem low_conf_true_of (cds : List CtxDoc) (bd : Option ℚ)
    (hlc : cds = [] ∨ bd = none ∨ ∃ d, bd = some d ∧ LOW_CONF_THRESHOLD < d) :
    low_conf cds bd = true := by
  rcases hlc with rfl | rfl | ⟨d, rfl, hd⟩
  · simp [low_conf]
  · simp [low_conf]
  · simp [low_conf, hd]

theorem low_conf_false_of (c : CtxDoc) (rest : List CtxDoc) (d : ℚ)
    (hle : d ≤ LOW_CONF_THRESHOLD) :
    low_conf (c :: rest) (some d) = false := by
  simp [low_conf, not_lt.mpr hle]

theorem contains_khmer_of_mem (q : String) (c : Char) (hc : c ∈ q.data)
    (h1 : 0x1780 ≤ c.toNat) (h2 : c.toNat ≤ 0x17FF) :
    contains_khmer q = true := by
  simp only [contains_khmer, List.any_eq_true, decide_eq_true_eq]
  exact ⟨c, hc, h1, h2⟩

/-! ## The claims -/

/-- C1: when the retrieval result is low-confidence — empty document list,
or undefined minimum distance, or minimum distance strictly above the 1.2
threshold — `answer_question` returns the fixed three-part fallback answer,
the context snippet is the top retrieved document's text (or the literal
"No context retrieved." when the list is empty), and the generative model is
never invoked (the trace records no generator call). -/
theorem C1_low_confidence_fallback (fmtDist : ℚ → String)
    (retrieve : String → List CtxDoc × Option ℚ)
    (generate : GenRequest → Option String) (pick : List String → String)
    (q : String) (h : List (String × String)) (cds : List CtxDoc) (bd : Option ℚ)
    (hk : contains_khmer q = false)
    (hi : classify_intent (normalize q) h ≠ "smalltalk")
    (hret : retrieve (buildRetrievalQuery q h) = (cds, bd))
    (hlc : cds = [] ∨ bd = none ∨ ∃ d, bd = some d ∧ LOW_CONF_THRESHOLD < d) :
    answer_question fmtDist retrieve generate pick q h =
      (FALLBACK_ANSWER, topContext cds, ⟨[buildRetrievalQuery q h], []⟩) := by
  simp [answer_question, hk, hi, hret, low_conf_true_of cds bd hlc]

/-- C2: when the retrieved list is non-empty and the minimum distance is at
most the 1.2 threshold, `answer_question` invokes the generator exactly once
(at temperature 0.2) and returns the generator's text verbatim when it is
non-empty, the fixed failure string when the response text is null or empty,
paired with the first retrieved document's text as the context snippet. -/
theorem C2_confident_generation (fmtDist : ℚ → String)
    (retrieve : String → List CtxDoc × Option ℚ)
    (generate : GenRequest → Option String) (pick : List String → String)
    (q : String) (h : List (String × String)) (c : CtxDoc) (rest : List CtxDoc) (d : ℚ)
    (hk : contains_khmer q = false)
    (hi : classify_intent (normalize q) h ≠ "smalltalk")
    (hret : retrieve (buildRetrievalQuery q h) = (c :: rest, some d))
    (hle : d ≤ LOW_CONF_THRESHOLD) :
    (answer_question fmtDist retrieve generate pick q h).2.2.genCalls
        = [genRequest fmtDist q h (c :: rest)] ∧
    (genRequest fmtDist q h (c :: rest)).temperature = 0.2 ∧
    (answer_question fmtDist retrieve generate pick q h).2.1 = c.1 ∧
    (∀ t, generate (genRequest fmtDist q h (c :: rest)) = some t → t ≠ "" →
        (answer_question fmtDist retrieve generate pick q h).1 = t) ∧
    ((generate (genRequest fmtDist q h (c :: rest)) = none ∨
      generate (genRequest fmtDist q h (c :: rest)) = some "") →
        (answer_question fmtDist retrieve generate pick q h).1
          = "Sorry, I could not generate an answer.") := by
  have hout : answer_question fmtDist retrieve generate pick q h =
      (genAnswer (generate (genRequest fmtDist q h (c :: rest))), c.1,
        ⟨[buildRetrievalQuery q h], [genRequest fmtDist q h (c :: rest)]⟩) := by
    simp [answer_question, hk, hi, hret, low_conf_false_of c rest d hle, topContext]
  refine ⟨by rw [hout], rfl, by rw [hout], ?_, ?_⟩
  · intro t ht hne
    rw [hout]
    simp [genAnswer, ht, hne]
  · intro hgen
    rw [hout]
    rcases hgen with hgen | hgen <;> simp [genAnswer, hgen]

/-- C3: a question containing any code point of the Khmer block
U+1780–U+17FF gets the fixed Khmer-redirect answer with context snippet
"Khmer detected — RAG not used.", and neither the retriever nor the
generator is ever invoked (the trace is empty). -/
theorem C3_khmer_redirect (fmtDist : ℚ → String)
    (retrieve : String → List CtxDoc × Option ℚ)
    (generate : GenRequest → Option String) (pick : List String → String)
    (q : String) (h : List (String × String)) (c : Char) (hc : c ∈ q.data)
    (h1 : 0x1780 ≤ c.toNat) (h2 : c.toNat ≤ 0x17FF) :
    answer_question fmtDist retrieve generate pick q h =
      (KHMER_ANSWER, "Khmer detected — RAG not used.", ⟨[], []⟩) := by
  simp [answer_question, contains_khmer_of_mem q c hc h1 h2]

/-- C4: any non-empty text whose lowercased, trailing-punctuation-stripped
form contains a banking keyword or a problem keyword as a substring
(`bank_score > 0` or `problem_score > 0`) is classified "banking",
regardless of punctuation, question marks, WH-words or smalltalk keywords
and of the history. -/
theorem C4_keyword_forces_banking (text : String) (h : List (String × String))
    (_hne : text ≠ "")
    (hs : 0 < keyword_score (rstripPunct (normalize text)) BANK_KEYWORDS ∨
          0 < keyword_score (rstripPunct (normalize text)) PROBLEM_KEYWORDS) :
    classify_intent text h = "banking" := by
  by_cases ht : normalize text = ""
  · rw [ht] at hs
    have hb : keyword_score (rstripPunct "") BANK_KEYWORDS = 0 := rfl
    have hp : keyword_score (rstripPunct "") PROBLEM_KEYWORDS = 0 := rfl
    rcases hs with hs | hs
    · rw [hb] at hs; exact absurd hs (lt_irrefl 0)
    · rw [hp] at hs; exact absurd hs (lt_irrefl 0)
  · simp only [classify_intent]
    rw [if_neg ht, if_pos hs]

/-- C5: `is_followup` is false on an empty history; on a non-empty history
it is true exactly when, after lowercasing and stripping trailing "?!."
from the question, the word count is at most 6, or a continuation marker
occurs as a substring, or the question's token set meets the previous user
message's token set. -/
theorem C5_is_followup_iff (q : String) (h : List (String × String)) :
    is_followup q h = true ↔
      ∃ p, h.getLast? = some p ∧
        ((pySplit (rstripPunct (normalize q))).length ≤ 6 ∨
         FOLLOWUP_MARKERS.any (fun m => strIn m (rstripPunct (normalize q))) = true ∨
         (pySplit (rstripPunct (normalize q))).any
           (fun w => (pySplit (lowerStr p.1)).contains w) = true) := by
  match h with
  | [] => simp [is_followup]
  | a :: as =>
    have hne : (a :: as) ≠ [] := by simp
    have hlast := List.getLast?_eq_getLast (a :: as) hne
    constructor
    · intro htrue
      refine ⟨(a :: as).getLast hne, hlast, ?_⟩
      simp only [is_followup, List.isEmpty_cons, Bool.false_eq_true, if_false, hlast] at htrue
      by_cases hw : (pySplit (rstripPunct (normalize q))).length ≤ 6
      · exact Or.inl hw
      · rw [if_neg hw] at htrue
        by_cases hm : FOLLOWUP_MARKERS.any (fun m => strIn m (rstripPunct (normalize q))) = true
        · exact Or.inr (Or.inl hm)
        · rw [if_neg (by simpa using hm)] at htrue
          exact Or.inr (Or.inr htrue)
    · rintro ⟨p, hp, hcond⟩
      rw [hlast] at hp
      obtain rfl : (a :: as).getLast hne = p := by injection hp
      simp only [is_followup, List.isEmpty_cons, Bool.false_eq_true, if_false, hlast]
      rcases hcond with hw | hm | ho
      · rw [if_pos hw]
      · by_cases hw : (pySplit (rstripPunct (normalize q))).length ≤ 6
        · rw [if_pos hw]
        · rw [if_neg hw, if_pos hm]
      · by_cases hw : (pySplit (rstripPunct (normalize q))).length ≤ 6
        · rw [if_pos hw]
        · rw [if_neg hw]
          by_cases hm : FOLLOWUP_MARKERS.any (fun m => strIn m (rstripPunct (normalize q))) = true
          · rw [if_pos hm]
          · rw [if_neg (by simpa using hm)]
            exact ho

/-- C7: each of "hi", "hello", "thanks", "ok", "bye" is classified
"smalltalk", whatever the history. -/
theorem C7_greetings_smalltalk (text : String) (h : List (String × String))
    (ht : text ∈ (["hi", "hello", "thanks", "ok", "bye"] : List String)) :
    classify_intent text h = "smalltalk" := by
  simp only [List.mem_cons, List.not_mem_nil, or_false] at ht
  rcases ht with rfl | rfl | rfl | rfl | rfl <;> rfl

/-- C6: on the banking path the single query sent to the retriever is
`buildRetrievalQuery`; it equals the previous user question followed by the
current raw question labeled "Follow-up:" exactly when `is_followup` is true
(on a non-empty history), and the raw current question unmodified when
`is_followup` is false. -/
theorem C6_retrieval_query (fmtDist : ℚ → String)
    (retrieve : String → List CtxDoc × Option ℚ)
    (generate : GenRequest → Option String) (pick : List String → String)
    (q : String) (h : List (String × String))
    (hk : contains_khmer q = false)
    (hi : classify_intent (normalize q) h ≠ "smalltalk") :
    (answer_question fmtDist retrieve generate pick q h).2.2.retrievalQueries
        = [buildRetrievalQuery q h] ∧
    (∀ p, h.getLast? = some p → is_followup (normalize q) h = true →
        buildRetrievalQuery q h = p.1 ++ "\nFollow-up: " ++ q) ∧
    (is_followup (normalize q) h = false → buildRetrievalQuery q h = q) := by
  refine ⟨?_, ?_, ?_⟩
  · by_cases hl : low_conf (retrieve (buildRetrievalQuery q h)).1
        (retrieve (buildRetrievalQuery q h)).2 <;>
      simp [answer_question, hk, hi, hl]
  · intro p hp hf
    have hne : h.isEmpty = false := by
      cases h with
      | nil => simp at hp
      | cons a as => rfl
    simp [buildRetrievalQuery, hf, hne, hp]
  · intro hf
    simp [buildRetrievalQuery, hf]

/-- C8 counterexample: "otp" appears twice in `BANK_KEYWORDS`, so
`keyword_score` gives the text "otp" a bank score of 2 although only one
distinct keyword of the list occurs in it — the score does not count each
distinct keyword at most once. -/
theorem C8_counterexample_duplicate_otp :
    keyword_score "otp" BANK_KEYWORDS = 2 ∧
    (BANK_KEYWORDS.dedup.filter
        (fun kw => strIn kw (lowerStr "otp"))).length = 1 := by
  constructor <;> decide

/-- C8 (amended): `keyword_score` counts one per **list entry** whose keyword
occurs as a substring of the lowercased text — so a keyword listed twice
contributes twice, while repeated occurrences inside the text never add to
the count. -/
theorem C8_per_entry_count (text : String) (keywords : List String) :
    keyword_score text keywords =
      (keywords.filter (fun kw => strIn kw (lowerStr text))).length := by
  induction keywords with
  | nil => rfl
  | cons k ks ih =>
    by_cases hk : strIn k (lowerStr text) = true <;>
      simp [keyword_score, List.filter_cons, hk] at ih ⊢ <;>
      omega

/-- C9 counterexample: handed mismatched lists — no documents but one
distance — `retrieve_context` returns an empty context list with a defined
(non-`none`) best distance, so "best distance is None iff the context list
is empty" fails for arbitrary query results. -/
theorem C9_counterexample_mismatched_lists :
    (retrieve_context [] [] [(2 : ℚ)]).1 = [] ∧
    (retrieve_context [] [] [(2 : ℚ)]).2 = some 2 := by
  constructor <;> rfl

/-- C9 (amended): the best distance is `none` iff the distances list is
empty; hence whenever the three lists the vector store returns have equal
lengths, the best distance is `none` iff the returned context-document list
is empty. -/
theorem C9_none_iff_empty_of_aligned (docs : List String) (metas : List Meta)
    (dists : List ℚ) (hd : docs.length = dists.length)
    (hm : metas.length = dists.length) :
    ((retrieve_context docs metas dists).2 = none ↔
      (retrieve_context docs metas dists).1 = []) := by
  cases dists with
  | nil =>
    obtain rfl : docs = [] := List.length_eq_zero.mp hd
    simp [retrieve_context, pyMin, zip3]
  | cons d ds =>
    cases docs with
    | nil => simp at hd
    | cons a as =>
      cases metas with
      | nil => simp at hm
      | cons m ms => simp [retrieve_context, pyMin, zip3]

/-- C10: keyword matching is plain substring containment, so
"that is interesting" is classified "banking" for every history: the
banking keyword "interest" occurs inside "interesting". -/
theorem C10_substring_false_positive (h : List (String × String)) :
    classify_intent "that is interesting" h = "banking" ∧
    "interest" ∈ BANK_KEYWORDS ∧
    strIn "interest" "that is interesting" = true :=
  ⟨rfl, by decide, rfl⟩

/-! ## Concrete instances (witnesses)

Fixed stand-ins for the external dependencies: a trivial float formatter, a
deterministic `random.choice`, a generator that always answers "ANS", a
retriever finding nothing, and a retriever returning one document "DOC" at
distance 1. -/

def fmtW : ℚ → String := fun _ => ""

def pickW : List String → String := fun _ => ""

def genW : GenRequest → Option String := fun _ => some "ANS"

def retEmptyW : String → List CtxDoc × Option ℚ := fun _ => ([], none)

def retDocW : String → List CtxDoc × Option ℚ := fun _ => ([("DOC", [], 1)], some 1)

def histW : List (String × String) :=
  [("what is the minimum balance for savings?", "answer")]

/-- C1 witness: with a retriever that finds nothing, "my card is blocked"
gets the fallback answer, the "No context retrieved." snippet, and no
generator call. -/
theorem C1_witness :
    answer_question fmtW retEmptyW genW pickW "my card is blocked" [] =
      (FALLBACK_ANSWER, "No context retrieved.", ⟨["my card is blocked"], []⟩) :=
  C1_low_confidence_fallback fmtW retEmptyW genW pickW "my card is blocked" []
    [] none (by decide) (by decide) rfl (Or.inl rfl)

/-- C2 witness: with one document "DOC" at distance 1 ≤ 1.2 and a generator
answering "ANS", the answer is "ANS" and the snippet is "DOC". -/
theorem C2_witness :
    (answer_question fmtW retDocW genW pickW "card blocked" []).1 = "ANS" ∧
    (answer_question fmtW retDocW genW pickW "card blocked" []).2.1 = "DOC" := by
  have H := C2_confident_generation fmtW retDocW genW pickW "card blocked" []
    ("DOC", [], 1) [] 1 (by decide) (by decide) rfl
    (by norm_num [LOW_CONF_THRESHOLD])
  exact ⟨H.2.2.2.1 "ANS" rfl (by decide), H.2.2.1⟩

/-- C3 witness: the one-character Khmer question U+1780 gets the fixed
redirect and an empty trace. -/
theorem C3_witness :
    answer_question fmtW retEmptyW genW pickW (String.mk [Char.ofNat 0x1780]) [] =
      (KHMER_ANSWER, "Khmer detected — RAG not used.", ⟨[], []⟩) :=
  C3_khmer_redirect fmtW retEmptyW genW pickW (String.mk [Char.ofNat 0x1780]) []
    (Char.ofNat 0x1780) (by decide) (by decide) (by decide)

/-- C4 witness: "otp not working" — no question mark, no WH-word — is
classified "banking". -/
theorem C4_witness : classify_intent "otp not working" [] = "banking" :=
  C4_keyword_forces_banking "otp not working" [] (by decide) (Or.inl (by decide))

/-- C6 witness: the spec's end-to-end scenario — "what about for fixed
deposit?" after the savings question is a follow-up, so the retriever is
queried with the previous question plus the labeled current one. -/
theorem C6_witness :
    (answer_question fmtW retEmptyW genW pickW "what about for fixed deposit?"
        histW).2.2.retrievalQueries =
      ["what is the minimum balance for savings?\nFollow-up: what about for fixed deposit?"] := by
  have H := C6_retrieval_query fmtW retEmptyW genW pickW
    "what about for fixed deposit?" histW (by decide) (by decide)
  rw [H.1, H.2.1 ("what is the minimum balance for savings?", "answer") rfl (by decide)]
  rfl

/-- C7 witness: "hi" is classified "smalltalk". -/
theorem C7_witness : classify_intent "hi" [] = "smalltalk" :=
  C7_greetings_smalltalk "hi" [] (by decide)

/-- C9 witness: on an aligned single-document result the best distance is
defined iff the context list is non-empty. -/
theorem C9_witness :
    ((retrieve_context ["a"] [[]] [(2 : ℚ)]).2 = none ↔
      (retrieve_context ["a"] [[]] [(2 : ℚ)]).1 = []) :=
  C9_none_iff_empty_of_aligned ["a"] [[]] [(2 : ℚ)] rfl rfl

end CallCenter
